import Mathlib

/-!
Shallow embedding of the pokeApi repository: the Express backend
(user store, Google OAuth verify callback, JWT token service, the
user-profile guard and the generate-pokemon proxy endpoint) and the
client PokemonCreator component (multi-select cap listener and the
generation workflow).  Machine strings are Lean `String`, JS arrays are
Lean `List`, absent JSON fields are `Option`, and the single outbound
HTTP call of the proxy is recorded explicitly so that call-issuing
behaviour can be stated.  JS truthiness is modelled where the source
relies on it: an empty string is falsy, an array (even empty) is truthy.
-/

/-- Executable substring test on the underlying character lists:
`listIsSub needle hay` is true when `needle` occurs contiguously in `hay`. -/
def listIsSub (needle : List Char) : List Char → Bool
  | [] => needle.isEmpty
  | c :: rest => needle.isPrefixOf (c :: rest) || listIsSub needle rest

/-- String containment: `strContains s sub` is true when `sub` occurs in `s`. -/
def strContains (s sub : String) : Bool :=
  listIsSub sub.data s.data

/-- Embedding of the JS `String.prototype.trim` used by the client on the
name field: strip leading and trailing whitespace. -/
def jsTrim (s : String) : String :=
  ⟨((s.data.dropWhile Char.isWhitespace).reverse.dropWhile Char.isWhitespace).reverse⟩

/-- JS truthiness of an optional string field: missing and empty are falsy. -/
def jsStrTruthy : Option String → Bool
  | none => false
  | some s => s != ""

/-! ### Token service (backend/index.ts, createAccessToken / getTokenPayload)

The jsonwebtoken library is external to the repository; it is modelled as an
ideal signature scheme: a token string is either the output of `jwt.sign`
(carrying its claims and the secret it was signed with) or any other raw
string, which never verifies.  `jwt.sign(payload, secret)` called without an
expiresIn option, as the source does, produces a token with no exp claim. -/

/-- Claims carried by a signed token: the embedded user id and an optional
expiry time (seconds since epoch). -/
structure JwtClaims where
  id : Nat
  exp : Option Nat
deriving DecidableEq

/-- The payload type the backend signs and expects back: `{ id: number }`. -/
structure TokenPayload where
  id : Nat
deriving DecidableEq

/-- A token string: either the output of `jwt.sign` or any other string. -/
inductive TokenString where
  | signed (claims : JwtClaims) (secret : String)
  | raw (s : String)
deriving DecidableEq

/-- The hard-coded signing secret of backend/index.ts. -/
def JWT_SECRET : String := "MY_SECRET"

/-- Model of `jwt.sign(payload, secret)` with no expiresIn option:
the produced token embeds the id and carries no exp claim. -/
def jwtSign (payload : TokenPayload) (secret : String) : TokenString :=
  TokenString.signed ⟨payload.id, none⟩ secret

/-- Model of `jwt.verify(token, secret, callback)` at time `now`: succeeds
exactly when the token was signed with `secret` and its exp claim, if any,
lies in the future; every failure is reported as `none` (the callback is
invoked with an error, never thrown). -/
def jwtVerify (token : TokenString) (secret : String) (now : Nat) : Option JwtClaims :=
  match token with
  | TokenString.signed claims sec =>
    if sec == secret then
      match claims.exp with
      | none => some claims
      | some e => if now < e then some claims else none
    else none
  | TokenString.raw _ => none

/-- backend/index.ts `createAccessToken`: sign `{ id: userId }` with JWT_SECRET. -/
def createAccessToken (userId : Nat) : TokenString :=
  jwtSign ⟨userId⟩ JWT_SECRET

/-- backend/index.ts `getTokenPayload`: resolve a token to its payload, or
`null` (here `none`) on any verification error. -/
def getTokenPayload (token : TokenString) (now : Nat) : Option TokenPayload :=
  (jwtVerify token JWT_SECRET now).map fun claims => ⟨claims.id⟩

/-! ### User store (backend/index.ts, users / findUserByGoogleId / findUserById / addUser) -/

/-- A stored user record. -/
structure User where
  id : Nat
  googleId : String
  displayName : String
  firstName : String
  lastName : String
  image : String
  email : String
deriving DecidableEq

/-- The module-level mutable state of the backend: the `lastId` counter and
the in-memory `users` array. -/
structure ServerState where
  lastId : Nat
  users : List User
deriving DecidableEq

/-- Initial backend state: `lastId = 1`, no users. -/
def initialServerState : ServerState := ⟨1, []⟩

/-- `users.find(user => user.googleId === googleId)`. -/
def findUserByGoogleId (googleId : String) (users : List User) : Option User :=
  users.find? fun user => user.googleId == googleId

/-- `users.find(user => user.id === id)`. -/
def findUserById (id : Nat) (users : List User) : Option User :=
  users.find? fun user => user.id == id

/-- The `Omit<User, "id">` argument of `addUser`. -/
structure NewUserData where
  googleId : String
  displayName : String
  firstName : String
  lastName : String
  image : String
  email : String

/-- `addUser`: assign the current `lastId` as the new id, increment the
counter, and push the record at the end of the array. -/
def addUser (data : NewUserData) (st : ServerState) : User × ServerState :=
  let newUser : User :=
    ⟨st.lastId, data.googleId, data.displayName, data.firstName,
     data.lastName, data.image, data.email⟩
  (newUser, ⟨st.lastId + 1, st.users ++ [newUser]⟩)

/-- The fields of a Google profile the verify callback reads. -/
structure GoogleProfile where
  id : String
  displayName : String
  givenName : Option String
  familyName : Option String
  photo : Option String
  email : Option String

/-- The passport Google strategy verify callback: resolve an existing user by
external id, or create one from the profile (missing profile parts default
to the empty string, as in the source via `|| ""` and optional chaining). -/
def googleVerify (profile : GoogleProfile) (st : ServerState) : User × ServerState :=
  match findUserByGoogleId profile.id st.users with
  | some user => (user, st)
  | none =>
    addUser
      ⟨profile.id, profile.displayName, profile.givenName.getD "",
       profile.familyName.getD "", profile.photo.getD "", profile.email.getD ""⟩
      st

/-! ### Session guard (backend/index.ts, GET /api/user-profile) -/

/-- JS truthiness of a cookie value that is present: only the empty string
is falsy; a signed token string is never empty. -/
def tokenStrTruthy : TokenString → Bool
  | TokenString.signed _ _ => true
  | TokenString.raw s => s != ""

/-- Outcome of the user-profile endpoint, one constructor per response. -/
inductive ProfileResult where
  | notAuthenticated
  | invalidToken
  | userNotFound
  | ok (user : User)
deriving DecidableEq

/-- HTTP status attached to each user-profile outcome: 200 on success,
401 for each of the three rejections. -/
def ProfileResult.status : ProfileResult → Nat
  | ProfileResult.ok _ => 200
  | _ => 401

/-- The GET /api/user-profile handler: read the authorization cookie
(`!token` is JS-falsy when the cookie is absent or empty), verify it,
and look up the embedded user id in the store.  Pure: it takes the user
list and the current time as explicit arguments and mutates nothing. -/
def userProfileHandler (cookie : Option TokenString) (users : List User) (now : Nat) :
    ProfileResult :=
  match cookie with
  | none => ProfileResult.notAuthenticated
  | some token =>
    if !tokenStrTruthy token then ProfileResult.notAuthenticated
    else
      match getTokenPayload token now with
      | none => ProfileResult.invalidToken
      | some payload =>
        match findUserById payload.id users with
        | none => ProfileResult.userNotFound
        | some user => ProfileResult.ok user

/-! ### Generation proxy (backend/index.ts, POST /api/generate-pokemon) -/

/-- The JSON body of a generation request.  `animalTypes` and `abilities`
are arrays when present; `none` models an absent field. -/
structure GenBody where
  name : Option String
  description : Option String
  animalTypes : Option (List String)
  abilities : Option (List String)

/-- The JSON payload of the one outbound call to the Stable Diffusion API. -/
structure SDRequest where
  prompt : String
  negative_prompt : String
  steps : Nat
  width : Nat
  height : Nat
  cfg_scale : Nat
  sampler_name : String
deriving DecidableEq

/-- The upstream response as the handler observes it: the HTTP ok flag and
the `images` field of the JSON body (`none` when the field is missing). -/
structure SDResponse where
  ok : Bool
  images : Option (List String)
deriving DecidableEq

/-- Outcome of the generate-pokemon endpoint, one constructor per response. -/
inductive GenResult where
  | badRequest (error : String)
  | ok (imageUrl : String) (prompt : String)
  | serverError (error : String)
deriving DecidableEq

/-- HTTP status attached to each generation outcome. -/
def GenResult.status : GenResult → Nat
  | GenResult.badRequest _ => 400
  | GenResult.ok _ _ => 200
  | GenResult.serverError _ => 500

/-- True exactly on the 400 outcome. -/
def GenResult.isBadRequest : GenResult → Bool
  | GenResult.badRequest _ => true
  | _ => false

/-- True exactly on the 200 outcome. -/
def GenResult.isOk : GenResult → Bool
  | GenResult.ok _ _ => true
  | _ => false

/-- The prompt template of the handler: name, the categories joined with
" and ", and the abilities joined with ", ", spliced into fixed text.
`String.intercalate` matches `Array.prototype.join`. -/
def buildPrompt (name : String) (animalTypes abilities : List String) : String :=
  "A pokemon creature named " ++ name ++ " that combines " ++
    String.intercalate " and " animalTypes ++ ", with " ++
    String.intercalate ", " abilities ++
    " powers, colorful, digital art, high quality, pokemon style, fantasy art"

/-- The fixed negative prompt sent with every outbound call. -/
def negativePrompt : String :=
  "ugly, blurry, low quality, distorted, disfigured, bad anatomy"

/-- The POST /api/generate-pokemon handler.  The validation is the JS test
`!name || !animalTypes || !abilities`: an absent field or an empty name is
falsy, but a present empty array is truthy and passes.  The second component
records the outbound Stable Diffusion calls actually issued (the source
contains exactly one fetch and no retry loop).  A non-ok upstream status or
a missing or empty images list throws, and the catch block answers 500. -/
def generatePokemonHandler (body : GenBody) (sd : SDResponse) :
    GenResult × List SDRequest :=
  match body.name, body.animalTypes, body.abilities with
  | some name, some animalTypes, some abilities =>
    if name == "" then (GenResult.badRequest "Missing required fields", [])
    else
      let prompt := buildPrompt name animalTypes abilities
      let call : SDRequest := ⟨prompt, negativePrompt, 20, 512, 512, 7, "Euler a"⟩
      if !sd.ok then (GenResult.serverError "Failed to generate pokemon image", [call])
      else
        match sd.images with
        | some (img :: _) =>
          (GenResult.ok ("data:image/png;base64," ++ img) prompt, [call])
        | _ => (GenResult.serverError "Failed to generate pokemon image", [call])
  | _, _, _ => (GenResult.badRequest "Missing required fields", [])

/-- The condition under which the source validation passes: a truthy name
and both array fields present (emptiness of the arrays is not checked). -/
def requestFieldsTruthy (body : GenBody) : Bool :=
  jsStrTruthy body.name && body.animalTypes.isSome && body.abilities.isSome

/-- True when the upstream response has an ok status and at least one image. -/
def upstreamSuccess (sd : SDResponse) : Bool :=
  sd.ok && !(sd.images.getD []).isEmpty

/-- An incoming API request as Express hands it to a route handler: the
authorization cookie (if any) and the parsed JSON body. -/
structure ApiRequest where
  cookie : Option TokenString
  body : GenBody

/-- The generate-pokemon route as registered on the router: no session
middleware guards it, and the handler destructures only `req.body`. -/
def generatePokemonRoute (req : ApiRequest) (sd : SDResponse) :
    GenResult × List SDRequest :=
  generatePokemonHandler req.body sd

/-! ### Client: multi-select cap (pokemon-creator.ts, createMultiSelect) -/

/-- Observable result of one change event on a multi-select: the options
left selected in the DOM, the selection recorded via onSelectionChange,
and the warning toast, if one was shown. -/
structure MultiSelectResult where
  domSelected : List String
  recorded : List String
  toast : Option String
deriving DecidableEq

/-- The change listener of `createMultiSelect`, applied to the list of
selected option values in document order.  Over the cap it clears
`select.options[select.selectedIndex]` — `selectedIndex` is the index of the
first selected option in document order, hence the head of the list — and
shows the warning; in every case it records `selectedOptions.slice(0, max)`. -/
def multiSelectChange (maxSelections : Nat) (warning : String)
    (selectedOptions : List String) : MultiSelectResult :=
  if selectedOptions.length > maxSelections then
    { domSelected := selectedOptions.tail
      recorded := selectedOptions.take maxSelections
      toast := some warning }
  else
    { domSelected := selectedOptions
      recorded := selectedOptions.take maxSelections
      toast := none }

/-- `createAnimalTypeSelector`: cap 2, warning key validation.maxAnimals. -/
def animalTypeSelectorChange : List String → MultiSelectResult :=
  multiSelectChange 2 "validation.maxAnimals"

/-- `createAbilitySelector`: cap 3, warning key validation.maxAbilities. -/
def abilitySelectorChange : List String → MultiSelectResult :=
  multiSelectChange 3 "validation.maxAbilities"

/-! ### Client: generation workflow (pokemon-creator.ts, generatePokemon) -/

/-- A gallery entry of the client. -/
structure Pokemon where
  id : String
  name : String
  animalTypes : List String
  abilities : List String
  imageUrl : Option String
  createdAt : Nat
deriving DecidableEq

/-- Outcome of the fetch to the proxy as the client observes it: the fetch
rejected, the response status was not ok, or a 200 with an imageUrl body. -/
inductive FetchOutcome where
  | networkError
  | httpError
  | success (imageUrl : String)
deriving DecidableEq

/-- The component state that `generatePokemon` reads and writes: the form
fields, the two recorded selection sets, the gallery and the in-flight flag. -/
structure ClientState where
  nameField : String
  descriptionField : String
  selectedAnimals : List String
  selectedAbilities : List String
  generatedPokemons : List Pokemon
  isGenerating : Bool
deriving DecidableEq

/-- The client `generatePokemon` flow for one submit, with `Date.now()`
passed as `now` and the fetch outcome as an oracle.  Returns the new state
and the toast shown, if any.  A submit while one is in flight is a no-op;
each failed validation shows its message and aborts; on success the entry
is unshifted onto the gallery and the form is reset; on any error the catch
block shows the failure toast; the finally block clears the in-flight flag. -/
def generatePokemonClient (st : ClientState) (now : Nat) (outcome : FetchOutcome) :
    ClientState × Option String :=
  if st.isGenerating then (st, none)
  else
    let name := jsTrim st.nameField
    if name == "" then (st, some "validation.nameRequired")
    else if st.selectedAnimals.isEmpty then (st, some "validation.selectAnimalType")
    else if st.selectedAbilities.isEmpty then (st, some "validation.selectAbility")
    else
      match outcome with
      | FetchOutcome.success url =>
        ({ st with
            generatedPokemons :=
              ⟨toString now, name, st.selectedAnimals, st.selectedAbilities,
               some url, now⟩ :: st.generatedPokemons
            nameField := ""
            descriptionField := ""
            selectedAnimals := []
            selectedAbilities := []
            isGenerating := false },
         some "messages.created")
      | _ => ({ st with isGenerating := false }, some "messages.generationFailed")

/-! ### Theorems -/

/-- C1 (counterexample): the claim says an empty category list fails with
InvalidRequest (400) before any outbound call.  In the code the JS test
`!animalTypes` is false for a present empty array, so the request
`{name: "Blaze", animalTypes: [], abilities: ["Fire"]}` passes validation:
exactly one outbound call is issued and the response is a 200, not a 400. -/
theorem generate_empty_list_passes_validation :
    ((generatePokemonHandler ⟨some "Blaze", none, some [], some ["Fire"]⟩
        ⟨true, some ["IMG"]⟩).2).length = 1 ∧
    (generatePokemonHandler ⟨some "Blaze", none, some [], some ["Fire"]⟩
        ⟨true, some ["IMG"]⟩).1.isBadRequest = false ∧
    (generatePokemonHandler ⟨some "Blaze", none, some [], some ["Fire"]⟩
        ⟨true, some ["IMG"]⟩).1.status = 200 := by
  decide

/-- C1 (amended): generate fails with 400 and issues no outbound call exactly
when the name is absent or empty, or the category list or the ability list is
absent; whenever the name is truthy and both lists are present — even empty —
validation passes and exactly one outbound call is issued. -/
theorem generate_validation_iff (body : GenBody) (sd : SDResponse) :
    ((generatePokemonHandler body sd).1.isBadRequest = !requestFieldsTruthy body) ∧
    ((generatePokemonHandler body sd).2.length =
      if requestFieldsTruthy body then 1 else 0) := by
  obtain ⟨n, d, ts, ab⟩ := body
  rcases sd with ⟨ok, images⟩
  cases n with
  | none =>
    cases ts <;> cases ab <;>
      simp [generatePokemonHandler, requestFieldsTruthy, jsStrTruthy,
        GenResult.isBadRequest]
  | some name =>
    cases ts with
    | none =>
      cases ab <;>
        simp [generatePokemonHandler, requestFieldsTruthy, jsStrTruthy,
          GenResult.isBadRequest]
    | some types =>
      cases ab with
      | none =>
        simp [generatePokemonHandler, requestFieldsTruthy, jsStrTruthy,
          GenResult.isBadRequest]
      | some abilities =>
        by_cases hn : name = ""
        · subst hn
          simp [generatePokemonHandler, requestFieldsTruthy, jsStrTruthy,
            GenResult.isBadRequest]
        · cases ok <;> rcases images with _ | ⟨_ | ⟨img, rest⟩⟩ <;>
            simp [generatePokemonHandler, requestFieldsTruthy, jsStrTruthy,
              GenResult.isBadRequest, hn]

/-- C2: the generate-pokemon route reads only the request body; its result
and its outbound call are the same for any two cookie values (valid, invalid
or absent), so no session guard is applied before validation or the call. -/
theorem generateRoute_cookie_noninterference (c₁ c₂ : Option TokenString)
    (body : GenBody) (sd : SDResponse) :
    generatePokemonRoute ⟨c₁, body⟩ sd = generatePokemonRoute ⟨c₂, body⟩ sd :=
  rfl

/-- C3 (counterexample): the claim says the description, if present, is
concatenated into the prompt.  For the request with name "Blaze",
categories Dragon and Cat, ability Fire and description "shiny purple
scales", the one outbound call carries a prompt that does not contain the
description text. -/
theorem generate_prompt_omits_description :
    ((generatePokemonHandler ⟨some "Blaze", some "shiny purple scales",
        some ["Dragon", "Cat"], some ["Fire"]⟩ ⟨true, some ["IMG"]⟩).2.map
      fun call => strContains call.prompt "shiny purple scales") = [false] := by
  decide

/-- C3 (amended): for every valid generation request — any non-empty name,
any category and ability lists, any description, any upstream response —
the one outbound call carries exactly the prompt built by splicing the
name, the category list joined with " and ", and the ability list joined
with ", ", into the fixed template, together with the fixed
negative-prompt string and the fixed generation parameters; the result is
independent of the description, which never reaches the prompt.  For name
"Blaze", categories Dragon and Cat, ability Fire, the prompt contains
"Blaze", "Dragon and Cat" and "Fire". -/
theorem generate_prompt_template (name : String) (desc : Option String)
    (animalTypes abilities : List String) (sd : SDResponse) (hname : name ≠ "") :
    ((generatePokemonHandler ⟨some name, desc, some animalTypes, some abilities⟩ sd).2 =
      [⟨buildPrompt name animalTypes abilities, negativePrompt,
        20, 512, 512, 7, "Euler a"⟩]) ∧
    (∀ desc',
      generatePokemonHandler ⟨some name, desc, some animalTypes, some abilities⟩ sd =
        generatePokemonHandler ⟨some name, desc', some animalTypes, some abilities⟩ sd) ∧
    strContains (buildPrompt "Blaze" ["Dragon", "Cat"] ["Fire"]) "Blaze" = true ∧
    strContains (buildPrompt "Blaze" ["Dragon", "Cat"] ["Fire"]) "Dragon and Cat" = true ∧
    strContains (buildPrompt "Blaze" ["Dragon", "Cat"] ["Fire"]) "Fire" = true := by
  refine ⟨?_, fun desc' => rfl, by decide, by decide, by decide⟩
  rcases sd with ⟨ok, images⟩
  cases ok <;> rcases images with _ | ⟨_ | ⟨img, rest⟩⟩ <;>
    simp [generatePokemonHandler, hname]

/-- C3 witness: the universal template statement at a concrete request that
carries a description. -/
theorem generate_prompt_template_witness :
    ((generatePokemonHandler ⟨some "Blaze", some "shiny purple scales",
        some ["Dragon", "Cat"], some ["Fire"]⟩ ⟨true, some ["IMG"]⟩).2 =
      [⟨buildPrompt "Blaze" ["Dragon", "Cat"] ["Fire"], negativePrompt,
        20, 512, 512, 7, "Euler a"⟩]) ∧
    strContains (buildPrompt "Blaze" ["Dragon", "Cat"] ["Fire"]) "Blaze" = true :=
  have h := generate_prompt_template "Blaze" (some "shiny purple scales")
    ["Dragon", "Cat"] ["Fire"] ⟨true, some ["IMG"]⟩ (by decide)
  ⟨h.1, h.2.2.1⟩

/-- C4: the user-profile guard yields notAuthenticated when the cookie is
absent, invalidToken when a (nonempty) token fails verification, and
userNotFound when a verifiable token references an id with no record; all
three rejections carry status 401.  The handler is a pure function of the
cookie, the store and the time, so it has no side effects. -/
theorem userProfile_guard_spec :
    (∀ users now, userProfileHandler none users now = ProfileResult.notAuthenticated) ∧
    (∀ token users now, tokenStrTruthy token = true → getTokenPayload token now = none →
      userProfileHandler (some token) users now = ProfileResult.invalidToken) ∧
    (∀ token payload users now, getTokenPayload token now = some payload →
      findUserById payload.id users = none →
      userProfileHandler (some token) users now = ProfileResult.userNotFound) ∧
    (ProfileResult.notAuthenticated.status = 401 ∧
      ProfileResult.invalidToken.status = 401 ∧
      ProfileResult.userNotFound.status = 401) := by
  refine ⟨fun users now => rfl, ?_, ?_, rfl, rfl, rfl⟩
  · intro token users now ht hv
    simp [userProfileHandler, ht, hv]
  · intro token payload users now hv hu
    have ht : tokenStrTruthy token = true := by
      cases token with
      | signed _ _ => rfl
      | raw s => simp [getTokenPayload, jwtVerify] at hv
    simp [userProfileHandler, ht, hv, hu]

/-- C4 witness: the three rejections at concrete inputs. -/
theorem userProfile_guard_spec_witness :
    userProfileHandler none [] 0 = ProfileResult.notAuthenticated ∧
    userProfileHandler (some (TokenString.signed ⟨1, none⟩ "WRONG")) [] 0 =
      ProfileResult.invalidToken ∧
    userProfileHandler (some (createAccessToken 7)) [] 0 = ProfileResult.userNotFound :=
  ⟨userProfile_guard_spec.1 [] 0,
   userProfile_guard_spec.2.1 (TokenString.signed ⟨1, none⟩ "WRONG") [] 0
     (by decide) (by decide),
   userProfile_guard_spec.2.2.1 (createAccessToken 7) ⟨7⟩ [] 0 (by decide) (by decide)⟩

/-- C5: for every valid request (nonempty name, at least one category and
one ability), generate answers 200 exactly when the upstream response has a
success status and at least one image, returning the first image as a data
URL together with the prompt used; otherwise it answers the 500 error; and
exactly one outbound call is issued (no retry). -/
theorem generate_success_iff (name : String) (desc : Option String) (ty : String)
    (tys : List String) (ab : String) (abs' : List String) (sd : SDResponse)
    (hname : name ≠ "") :
    ((generatePokemonHandler ⟨some name, desc, some (ty :: tys), some (ab :: abs')⟩
        sd).1.isOk = upstreamSuccess sd) ∧
    (upstreamSuccess sd = false →
      (generatePokemonHandler ⟨some name, desc, some (ty :: tys), some (ab :: abs')⟩
          sd).1 = GenResult.serverError "Failed to generate pokemon image") ∧
    (∀ img rest, sd.ok = true → sd.images = some (img :: rest) →
      (generatePokemonHandler ⟨some name, desc, some (ty :: tys), some (ab :: abs')⟩
          sd).1 =
        GenResult.ok ("data:image/png;base64," ++ img)
          (buildPrompt name (ty :: tys) (ab :: abs'))) ∧
    ((generatePokemonHandler ⟨some name, desc, some (ty :: tys), some (ab :: abs')⟩
        sd).2.length = 1) := by
  rcases sd with ⟨ok, images⟩
  cases ok <;> rcases images with _ | ⟨_ | ⟨img, rest⟩⟩ <;>
    simp [generatePokemonHandler, upstreamSuccess, GenResult.isOk, hname]

/-- C5 witness: a valid request against an upstream answering one image. -/
theorem generate_success_iff_witness :
    (generatePokemonHandler ⟨some "Blaze", none, some ["Dragon"], some ["Fire"]⟩
        ⟨true, some ["IMG"]⟩).1 =
      GenResult.ok "data:image/png;base64,IMG" (buildPrompt "Blaze" ["Dragon"] ["Fire"]) ∧
    (generatePokemonHandler ⟨some "Blaze", none, some ["Dragon"], some ["Fire"]⟩
        ⟨true, some ["IMG"]⟩).2.length = 1 :=
  have h := generate_success_iff "Blaze" none "Dragon" [] "Fire" [] ⟨true, some ["IMG"]⟩
    (by decide)
  ⟨h.2.2.1 "IMG" [] rfl rfl, h.2.2.2⟩

/-- C6: running the OAuth verify callback twice in a row with the same
external profile yields the same user record and leaves the store of the
first run unchanged: a record is created at most once per external id and
the second callback resolves to the id created by the first. -/
theorem oauth_callback_idempotent (profile : GoogleProfile) (st : ServerState) :
    (googleVerify profile (googleVerify profile st).2).1 = (googleVerify profile st).1 ∧
    (googleVerify profile (googleVerify profile st).2).2 = (googleVerify profile st).2 := by
  cases h : findUserByGoogleId profile.id st.users with
  | some user => simp [googleVerify, h]
  | none =>
    simp only [findUserByGoogleId] at h
    simp [googleVerify, findUserByGoogleId, addUser, h, List.find?_append]

/-- C7: verifying a token produced by createAccessToken returns exactly the
signed user id, at any time; and every failing input — a non-signed string,
a token signed with another secret, or an expired token — makes
getTokenPayload return the invalid outcome (none) instead of throwing
(the embedding is a total function). -/
theorem token_verify_spec :
    (∀ userId now, getTokenPayload (createAccessToken userId) now = some ⟨userId⟩) ∧
    (∀ s now, getTokenPayload (TokenString.raw s) now = none) ∧
    (∀ claims secret now, secret ≠ JWT_SECRET →
      getTokenPayload (TokenString.signed claims secret) now = none) ∧
    (∀ i e now, e ≤ now →
      getTokenPayload (TokenString.signed ⟨i, some e⟩ JWT_SECRET) now = none) := by
  refine ⟨fun userId now => rfl, fun s now => rfl, ?_, ?_⟩
  · intro claims secret now h
    simp [getTokenPayload, jwtVerify, h]
  · intro i e now h
    simp [getTokenPayload, jwtVerify, Nat.not_lt.mpr h]

/-- C7 witness: the round trip and the three failure classes at concrete
inputs. -/
theorem token_verify_spec_witness :
    getTokenPayload (createAccessToken 42) 1000 = some ⟨42⟩ ∧
    getTokenPayload (TokenString.raw "garbage") 0 = none ∧
    getTokenPayload (TokenString.signed ⟨1, none⟩ "OTHER") 0 = none ∧
    getTokenPayload (TokenString.signed ⟨1, some 5⟩ JWT_SECRET) 5 = none :=
  ⟨token_verify_spec.1 42 1000,
   token_verify_spec.2.1 "garbage" 0,
   token_verify_spec.2.2.1 ⟨1, none⟩ "OTHER" 0 (by decide),
   token_verify_spec.2.2.2 1 5 5 (by decide)⟩

/-- C8 (counterexample): the claim says the over-cap choice is deselected.
With Dragon and Cat already selected (cap 2) and Dog then selected as a
third, the listener clears `options[selectedIndex]` — the first selected
option in document order, Dragon — so the over-cap choice Dog stays
selected in the DOM, and the recorded selection still contains the
deselected Dragon. -/
theorem multiSelect_overcap_keeps_new_choice :
    (animalTypeSelectorChange ["Dragon", "Cat", "Dog"]).domSelected = ["Cat", "Dog"] ∧
    (animalTypeSelectorChange ["Dragon", "Cat", "Dog"]).domSelected.contains "Dog" = true ∧
    (animalTypeSelectorChange ["Dragon", "Cat", "Dog"]).recorded = ["Dragon", "Cat"] ∧
    (animalTypeSelectorChange ["Dragon", "Cat", "Dog"]).toast =
      some "validation.maxAnimals" := by
  decide

/-- C8 (amended): after every change event the recorded selection count
never exceeds the cap (2 animal types, 3 abilities); an over-cap selection
shows the warning toast and deselects the first selected option in document
order (not necessarily the over-cap choice), the recorded selection being
the first cap-many selected options; an in-cap selection is kept as is. -/
theorem multiSelect_cap_spec :
    (∀ (cap : Nat) (warning : String) (sel : List String),
      (multiSelectChange cap warning sel).recorded.length ≤ cap) ∧
    (∀ (cap : Nat) (warning : String) (sel : List String), sel.length > cap →
      (multiSelectChange cap warning sel).toast = some warning ∧
      (multiSelectChange cap warning sel).domSelected = sel.tail) ∧
    (∀ (cap : Nat) (warning : String) (sel : List String), sel.length ≤ cap →
      multiSelectChange cap warning sel = ⟨sel, sel, none⟩) ∧
    (∀ sel, (animalTypeSelectorChange sel).recorded.length ≤ 2) ∧
    (∀ sel, (abilitySelectorChange sel).recorded.length ≤ 3) := by
  have hlen : ∀ (cap : Nat) (warning : String) (sel : List String),
      (multiSelectChange cap warning sel).recorded.length ≤ cap := by
    intro cap warning sel
    by_cases h : sel.length > cap <;>
      simp [multiSelectChange, h, List.length_take]
  refine ⟨hlen, ?_, ?_, fun sel => hlen 2 "validation.maxAnimals" sel,
    fun sel => hlen 3 "validation.maxAbilities" sel⟩
  · intro cap warning sel h
    simp [multiSelectChange, h]
  · intro cap warning sel h
    have h' : ¬sel.length > cap := not_lt.mpr h
    simp [multiSelectChange, h', List.take_of_length_le h]

/-- C8 witness: the cap facts at concrete inputs. -/
theorem multiSelect_cap_spec_witness :
    (multiSelectChange 2 "validation.maxAnimals" ["Dragon", "Cat", "Dog"]).recorded.length ≤ 2 ∧
    (multiSelectChange 2 "validation.maxAnimals" ["Dragon", "Cat", "Dog"]).toast =
      some "validation.maxAnimals" ∧
    (multiSelectChange 2 "validation.maxAnimals" ["Dragon", "Cat", "Dog"]).domSelected =
      ["Cat", "Dog"] ∧
    multiSelectChange 3 "validation.maxAbilities" ["Fire"] = ⟨["Fire"], ["Fire"], none⟩ :=
  ⟨multiSelect_cap_spec.1 2 "validation.maxAnimals" ["Dragon", "Cat", "Dog"],
   (multiSelect_cap_spec.2.1 2 "validation.maxAnimals" ["Dragon", "Cat", "Dog"]
     (by decide)).1,
   (multiSelect_cap_spec.2.1 2 "validation.maxAnimals" ["Dragon", "Cat", "Dog"]
     (by decide)).2,
   multiSelect_cap_spec.2.2.1 3 "validation.maxAbilities" ["Fire"] (by decide)⟩

/-- C9: for a submitted generation (idle state, all validations passing),
a network error or a proxy-reported failure leaves the gallery untouched,
shows the failure toast and returns to idle; the new entry is prepended at
index 0 exactly on success, and any gallery change implies a success
outcome. -/
theorem client_gallery_spec (st : ClientState) (now : Nat)
    (hidle : st.isGenerating = false) (hname : jsTrim st.nameField ≠ "")
    (hanimals : st.selectedAnimals ≠ []) (habilities : st.selectedAbilities ≠ []) :
    (∀ outcome, outcome = FetchOutcome.networkError ∨ outcome = FetchOutcome.httpError →
      (generatePokemonClient st now outcome).1.generatedPokemons = st.generatedPokemons ∧
      (generatePokemonClient st now outcome).1.isGenerating = false ∧
      (generatePokemonClient st now outcome).2 = some "messages.generationFailed") ∧
    (∀ url,
      (generatePokemonClient st now (FetchOutcome.success url)).1.generatedPokemons =
        ⟨toString now, jsTrim st.nameField, st.selectedAnimals, st.selectedAbilities,
         some url, now⟩ :: st.generatedPokemons) ∧
    (∀ outcome,
      (generatePokemonClient st now outcome).1.generatedPokemons ≠ st.generatedPokemons →
      ∃ url, outcome = FetchOutcome.success url) := by
  have hn : (jsTrim st.nameField == "") = false := beq_eq_false_iff_ne.mpr hname
  have ha : st.selectedAnimals.isEmpty = false := by
    cases h : st.selectedAnimals with
    | nil => exact absurd h hanimals
    | cons a l => rfl
  have hb : st.selectedAbilities.isEmpty = false := by
    cases h : st.selectedAbilities with
    | nil => exact absurd h habilities
    | cons a l => rfl
  refine ⟨?_, ?_, ?_⟩
  · intro outcome houtcome
    rcases houtcome with h | h <;> subst h <;>
      simp [generatePokemonClient, hidle, hn, ha, hb]
  · intro url
    simp [generatePokemonClient, hidle, hn, ha, hb]
  · intro outcome hne
    cases outcome with
    | networkError => simp [generatePokemonClient, hidle, hn, ha, hb] at hne
    | httpError => simp [generatePokemonClient, hidle, hn, ha, hb] at hne
    | success url => exact ⟨url, rfl⟩

/-- C9 witness: a failed and a successful submit from a concrete idle state. -/
theorem client_gallery_spec_witness :
    (generatePokemonClient ⟨"Blaze", "", ["Dragon"], ["Fire"], [], false⟩ 111
        FetchOutcome.networkError).1.generatedPokemons = [] ∧
    (generatePokemonClient ⟨"Blaze", "", ["Dragon"], ["Fire"], [], false⟩ 111
        FetchOutcome.networkError).2 = some "messages.generationFailed" ∧
    (generatePokemonClient ⟨"Blaze", "", ["Dragon"], ["Fire"], [], false⟩ 111
        (FetchOutcome.success "u")).1.generatedPokemons =
      [⟨toString 111, jsTrim "Blaze", ["Dragon"], ["Fire"], some "u", 111⟩] :=
  have h := client_gallery_spec ⟨"Blaze", "", ["Dragon"], ["Fire"], [], false⟩ 111 rfl
    (by decide) (by decide) (by decide)
  ⟨(h.1 FetchOutcome.networkError (Or.inl rfl)).1,
   (h.1 FetchOutcome.networkError (Or.inl rfl)).2.2,
   h.2.1 "u"⟩

/-- C10: createAccessToken signs no expiry claim, so a token it produces
verifies to the signed user id at every time, and the verification outcome
is independent of the elapsed time (the signing secret being the fixed
JWT_SECRET constant). -/
theorem token_no_expiry (userId now now' : Nat) :
    getTokenPayload (createAccessToken userId) now =
      getTokenPayload (createAccessToken userId) now' ∧
    getTokenPayload (createAccessToken userId) now = some ⟨userId⟩ :=
  ⟨rfl, rfl⟩
